import Mathlib

/-!
Verification of the forecast-extraction engine of `jua_warnings_api`
(`app/services/data_zarr`): parameter registry, longitude normalization,
time-range clipping, frequency resampling, derived wind parameters, unit
conversion and GeoJSON feature rendering.

Numeric data values are modelled with `ℚ` where the source computes with
plain arithmetic, and with `ℝ` for the transcendental wind formulas.
Timestamps are modelled as integers counting hours (the dataset's native
resolution); the textual ISO rendering of a timestamp is abstracted by a
plain string.
-/

namespace DataZarr

/-- `UnitSystem` from params.py: a system of units. -/
inductive UnitSystem where
  | SI
  | DEFAULT
deriving DecidableEq, Repr

/-- `Frequency` from params.py: a frequency of dataset datetime. -/
inductive Frequency where
  | FIVE_MINUTE
  | ONE_HOUR
deriving DecidableEq, Repr

/-- The gap-fill strategy stored in a `ParameterSpec` (the source stores a
function; the catalog only ever uses these two closed alternatives). -/
inductive InterpKind where
  | linear
  | bfillAverage (interpolated_steps : ℚ)
deriving DecidableEq, Repr

/-- The derivation function stored in a `ParameterSpec` (the source stores a
function; the catalog only ever uses these three closed alternatives). -/
inductive CalcKind where
  | lookup (key : String)
  | windSpeed
  | windDirection
deriving DecidableEq, Repr

/-- `ParameterSpec` from params.py. -/
structure ParameterSpec where
  short_name : String
  long_name : String
  data_unit : String
  si_unit : String
  default_unit : String
  data_keys : List String
  interpolator : InterpKind
  calculator : CalcKind
deriving DecidableEq, Repr

/-- The `units` dict of a `ParameterSpec`, keyed by unit system. -/
def ParameterSpec.units (p : ParameterSpec) : UnitSystem → String
  | UnitSystem.SI => p.si_unit
  | UnitSystem.DEFAULT => p.default_unit

/-- `ParameterSpec.keys_present`: all of the required keys for this
parameter are available among the dataset's data variables. -/
def ParameterSpec.keys_present (p : ParameterSpec) (keys : List String) : Bool :=
  p.data_keys.all (fun k => keys.contains k)

/-- Modelled from the spec: the unit conversions that `pint` (an external
library, not part of this repository) performs for the unit pairs occurring
in the catalog: Celsius = Kelvin - 273.15, hPa = Pa / 100, mm = m * 1000.
Unknown pairs are left unchanged. -/
def pintConvert {α : Type*} [Field α] (src dst : String) (x : α) : α :=
  if src = "K" ∧ dst = "degC" then x - 27315 / 100
  else if src = "Pa" ∧ dst = "hPa" then x / 100
  else if src = "m" ∧ dst = "mm" then x * 1000
  else x

/-- `ParameterSpec.convert_units`: identity when the native storage unit
equals the target system's display unit, otherwise the `pint` conversion. -/
def ParameterSpec.convert_units {α : Type*} [Field α]
    (p : ParameterSpec) (us : UnitSystem) (x : α) : α :=
  if p.data_unit = p.units us then x
  else pintConvert p.data_unit (p.units us) x

/-- `INTERPOLATED_STEPS_PER_HOUR` from params.py: 60 / 5, the downscale
ratio to 5-minute steps. -/
def INTERPOLATED_STEPS_PER_HOUR : ℚ := 60 / 5

/-- `SUPPORTED_PARAMETERS` from params.py: the fixed static catalog, in
source order, with the source's default fields written out (`data_keys`
defaults to the singleton of the short name, the calculator defaults to
direct lookup of the single data key, the interpolator defaults to linear
interpolation). -/
def SUPPORTED_PARAMETERS : List (String × ParameterSpec) :=
  [ ("VAR_10U",
     { short_name := "VAR_10U", long_name := "10 metre U wind component",
       data_unit := "m s**-1", si_unit := "m s**-1", default_unit := "m s**-1",
       data_keys := ["VAR_10U"], interpolator := InterpKind.linear,
       calculator := CalcKind.lookup "VAR_10U" }),
    ("VAR_10V",
     { short_name := "VAR_10V", long_name := "10 metre V wind component",
       data_unit := "m s**-1", si_unit := "m s**-1", default_unit := "m s**-1",
       data_keys := ["VAR_10V"], interpolator := InterpKind.linear,
       calculator := CalcKind.lookup "VAR_10V" }),
    ("VAR_2T",
     { short_name := "VAR_2T", long_name := "2 metre temperature",
       data_unit := "K", si_unit := "K", default_unit := "degC",
       data_keys := ["VAR_2T"], interpolator := InterpKind.linear,
       calculator := CalcKind.lookup "VAR_2T" }),
    ("TCWV",
     { short_name := "TCWV", long_name := "total column water vapour",
       data_unit := "kg m**-2", si_unit := "kg m**-2", default_unit := "kg m**-2",
       data_keys := ["TCWV"], interpolator := InterpKind.linear,
       calculator := CalcKind.lookup "TCWV" }),
    ("SP",
     { short_name := "SP", long_name := "surface pressure",
       data_unit := "Pa", si_unit := "Pa", default_unit := "hPa",
       data_keys := ["SP"], interpolator := InterpKind.linear,
       calculator := CalcKind.lookup "SP" }),
    ("MSL",
     { short_name := "MSL", long_name := "mean sea level pressure",
       data_unit := "Pa", si_unit := "Pa", default_unit := "hPa",
       data_keys := ["MSL"], interpolator := InterpKind.linear,
       calculator := CalcKind.lookup "MSL" }),
    ("TP",
     { short_name := "TP", long_name := "total precipitation",
       data_unit := "m", si_unit := "m", default_unit := "mm",
       data_keys := ["TP"],
       interpolator := InterpKind.bfillAverage INTERPOLATED_STEPS_PER_HOUR,
       calculator := CalcKind.lookup "TP" }),
    ("10WS",
     { short_name := "10WS", long_name := "10 metre wind speed",
       data_unit := "m s**-1", si_unit := "m s**-1", default_unit := "m s**-1",
       data_keys := ["VAR_10U", "VAR_10V"], interpolator := InterpKind.linear,
       calculator := CalcKind.windSpeed }),
    ("10WD",
     { short_name := "10WD", long_name := "10 metre wind direction",
       data_unit := "degree", si_unit := "degree", default_unit := "degree",
       data_keys := ["VAR_10U", "VAR_10V"], interpolator := InterpKind.linear,
       calculator := CalcKind.windDirection }) ]

/-- `gen_supported_params` from params.py: keep exactly the catalog entries
whose data keys are all present among the dataset's data variables. -/
def gen_supported_params (available_keys : List String) :
    List (String × ParameterSpec) :=
  SUPPORTED_PARAMETERS.filter (fun kv => kv.2.keys_present available_keys)

/-- Pandas `bfill(dim="time")` (external library, standard semantics): each
position takes the first non-missing value at or after it; trailing gaps
stay missing. -/
def bfill {α : Type*} (l : List (Option α)) : List (Option α) :=
  (List.range l.length).map (fun i => (l.drop i).findSome? id)

/-- `interp_bfill_average` from calculations.py: divide the whole series by
`interpolated_steps`, then back-fill missing values along time. -/
def interp_bfill_average {α : Type*} [Field α] (interpolated_steps : α)
    (data : List (Option α)) : List (Option α) :=
  bfill (data.map (Option.map (fun v => v / interpolated_steps)))

/-- The last known (index, value) pair at or before position `i`. -/
def lastSomeBefore {α : Type*} (data : List (Option α)) (i : ℕ) : Option (ℕ × α) :=
  ((data.take (i + 1)).enum.filterMap (fun p => p.2.map (fun v => (p.1, v)))).getLast?

/-- The first known (index, value) pair at or after position `i`. -/
def nextSomeFrom {α : Type*} (data : List (Option α)) (i : ℕ) : Option (ℕ × α) :=
  ((data.enum.drop i).filterMap (fun p => p.2.map (fun v => (p.1, v)))).head?

/-- `interp_linear` from calculations.py, i.e. xarray
`interpolate_na(dim="time", method="linear")` (external library, standard
semantics): interior gaps take the linear interpolation between the two
bracketing known samples; gaps with no known sample on one side stay
missing. -/
def interp_linear {α : Type*} [Field α] (data : List (Option α)) : List (Option α) :=
  (List.range data.length).map (fun i =>
    match data.getD i none with
    | some v => some v
    | none =>
        match lastSomeBefore data i, nextSomeFrom data i with
        | some (j1, v1), some (j2, v2) =>
            some (v1 + (v2 - v1) * ((i : α) - (j1 : α)) / ((j2 : α) - (j1 : α)))
        | _, _ => none)

/-- `_reindex_to_freq` from data_service.py, viewed along one series: the
native samples `vs`, sitting at consecutive hourly stamps, are re-indexed
onto a grid `k` times finer spanning first..last native stamp; original
positions keep their value, newly introduced positions are missing. -/
def reindex_to_freq {α : Type*} [Zero α] (vs : List α) (k : ℕ) : List (Option α) :=
  if vs.isEmpty then []
  else (List.range ((vs.length - 1) * k + 1)).map
    (fun i => if i % k = 0 then some (vs.getD (i / k) 0) else none)

/-- Dispatch an `InterpKind` to its gap-fill function (this is the
`interpolate_na` call in `_downscale_to_freq`). -/
def applyInterp {α : Type*} [Field α] :
    InterpKind → List (Option α) → List (Option α)
  | InterpKind.linear => interp_linear
  | InterpKind.bfillAverage k => interp_bfill_average ((k : ℚ) : α)

/-- One data key's series as the pipeline produces it at a given frequency:
at the native hourly frequency the resampling stage is skipped entirely
(`get_points_as_geojson` only calls `_downscale_to_freq` when the requested
frequency differs from one hour); at the 5-minute frequency the series is
re-indexed 12 times finer and gap-filled with the key's interpolator. -/
def series_at_freq {α : Type*} [Field α] (interp : InterpKind) (freq : Frequency)
    (vs : List α) : List (Option α) :=
  match freq with
  | Frequency.ONE_HOUR => vs.map some
  | Frequency.FIVE_MINUTE => applyInterp interp (reindex_to_freq vs 12)

/-- One rendered GeoJSON feature. The `DATETIME` property is kept as an
abstract pre-formatted string, and the `REQUEST_ID` property is kept apart
from the per-parameter properties. -/
structure Feature where
  fid : ℕ
  lon : ℚ
  lat : ℚ
  datetime : String
  request_id : Option String
  props : List (String × ℝ)

/-- A rendered GeoJSON feature collection. -/
structure FeatureCollection where
  features : List Feature

/-- `_render_points_geojson` from data_service.py: one feature per (point,
timestamp) pair, points outermost in input order, timestamps innermost in
time-axis order. The source increments a feature id counter once per inner
iteration; here it is written in the closed form `z * |times| + t + 1`. -/
def _render_points_geojson (parameters : List String) (times : List String)
    (lons lats : List ℚ) (values : String → ℕ → ℕ → ℝ)
    (requested_feature_ids : Option (List (Option String))) : FeatureCollection :=
  { features :=
      (List.range lons.length).flatMap (fun z =>
        (List.range times.length).map (fun t =>
          { fid := z * times.length + t + 1
            lon := lons.getD z 0
            lat := lats.getD z 0
            datetime := times.getD t ""
            request_id :=
              match requested_feature_ids with
              | none => none
              | some ids => ids.getD z none
            props := parameters.map (fun p => (p, values p t z)) })) }

/-- Pandas `date_range(s, e, freq="1H")` at the hour-integer granularity of
this model: the stamps s, s+1, ..., e (empty when e < s). -/
def dateRange1H (s e : ℤ) : List ℤ :=
  (List.range (e + 1 - s).toNat).map (fun i : ℕ => s + (i : ℤ))

/-- The time axis selected by `_load_subset` from data_service.py: the
requested range clipped to the dataset's native time span, realized as an
inclusive hourly date range. -/
def load_subset_times (dataMin dataMax reqStart reqEnd : ℤ) : List ℤ :=
  dateRange1H (max reqStart dataMin) (min reqEnd dataMax)

/-- `longitude_geojson_to_zarr` from data_service.py (scalar form of the
vectorized `np.where(lon < 0, lon + 360.0, lon)`). -/
def longitude_geojson_to_zarr (lon : ℚ) : ℚ :=
  if lon < 0 then lon + 360 else lon

/-- `longitude_zarr_to_geojson` from data_service.py (scalar form of the
vectorized `np.where(lon > 180, lon - 360.0, lon)`). -/
def longitude_zarr_to_geojson (lon : ℚ) : ℚ :=
  if lon > 180 then lon - 360 else lon

/-- Two-argument arctangent `atan2(y, x)`, realized as the complex argument
of `x + y i`, with values in (-π, π]. -/
noncomputable def atan2 (y x : ℝ) : ℝ := Complex.arg ⟨x, y⟩

/-- Radians to degrees. -/
noncomputable def degrees (r : ℝ) : ℝ := r * (180 / Real.pi)

/-- `calc_wind_speed` from calculations.py delegates to
`metpy.calc.wind_speed` (external library): the hypotenuse
`sqrt(u^2 + v^2)`. -/
noncomputable def calc_wind_speed (u v : ℝ) : ℝ := Real.sqrt (u ^ 2 + v ^ 2)

/-- `calc_wind_direction` from calculations.py delegates to
`metpy.calc.wind_direction` (external library) with its default "from"
convention, whose documented definition is: `wdir = 90° - atan2(-v, -u)` in
degrees, shifted by +360 when non-positive (so a due-north wind reports
360, not 0), and calm winds (u = v = 0) report 0. -/
noncomputable def calc_wind_direction (u v : ℝ) : ℝ :=
  if u = 0 ∧ v = 0 then 0
  else
    let wdir := 90 - degrees (atan2 (-v) (-u))
    if wdir ≤ 0 then wdir + 360 else wdir

/-- Real modulus with the convention `a mod n = a - n * ⌊a / n⌋`, the "mod"
of the spec's wind-direction formula. -/
noncomputable def realMod (a n : ℝ) : ℝ := a - n * (⌊a / n⌋ : ℤ)

/-- The errors the extraction pipeline can signal: the service's
`ParamNotSupportedError`, and Python's ValueError from tuple unpacking. -/
inductive ApiError where
  | paramNotSupported (params : List String)
  | valueError (msg : String)
deriving DecidableEq, Repr

/-- `ParamNotSupportedError.__init__` sorts the offending names into a
list. -/
def mkParamNotSupportedError (params : Finset String) : ApiError :=
  ApiError.paramNotSupported (params.sort (· ≤ ·))

/-- `DataService.get_unsupported_params`: requested names minus the
registry's keys. -/
def get_unsupported_params (supported requested : Finset String) : Finset String :=
  requested \ supported

/-- `DataService.check_params_supported`, in `Except` form: signal
`ParamNotSupportedError` when some requested parameter is unsupported. -/
def check_params_supported (supported requested : Finset String) :
    Except ApiError Unit :=
  let unsupported := get_unsupported_params supported requested
  if unsupported = ∅ then Except.ok ()
  else Except.error (mkParamNotSupportedError unsupported)

/-- The slice of an `xr.Dataset` this model needs: the grid axes, the native
hourly time stamps (as hour numbers) and, per data variable name, the stored
value at a (time, lon, lat) grid cell. -/
structure Dataset where
  lons : List ℚ
  lats : List ℚ
  times : List ℤ
  data_vars : List (String × (ℤ → ℚ → ℚ → ℝ))

/-- Value of one data variable at a grid cell (0 for an absent variable; the
pipeline only reads variables that passed the support check). -/
def Dataset.varAt (ds : Dataset) (key : String) (t : ℤ) (lon lat : ℚ) : ℝ :=
  ((List.lookup key ds.data_vars).getD (fun _ _ _ => 0)) t lon lat

/-- Per-axis nearest-neighbor lookup, `sel(..., method="nearest")`: the grid
value minimizing the distance to the query, earlier grid values winning
ties. -/
def nearestVal (grid : List ℚ) (x : ℚ) : ℚ :=
  match grid with
  | [] => x
  | g :: gs => gs.foldl (fun best c => if |c - x| < |best - x| then c else best) g

/-- `zip(*coords)` in Python: the transpose of a list of pairs; an empty
input yields no columns at all rather than two empty columns. -/
def zipStar (coords : List (ℚ × ℚ)) : List (List ℚ) :=
  match coords with
  | [] => []
  | _ => [coords.map Prod.fst, coords.map Prod.snd]

/-- Python unpacking `lon, lat = cols` of a list into exactly two names:
raises ValueError unless the list has exactly two elements. -/
def unpack2 (cols : List (List ℚ)) : Except ApiError (List ℚ × List ℚ) :=
  match cols with
  | [a, b] => Except.ok (a, b)
  | _ => Except.error (ApiError.valueError "not enough values to unpack")

/-- Fallback spec making registry lookup total in the pipeline model (never
reached for parameters that passed the support check). -/
def defaultSpec : ParameterSpec :=
  { short_name := "", long_name := "", data_unit := "", si_unit := "",
    default_unit := "", data_keys := [], interpolator := InterpKind.linear,
    calculator := CalcKind.lookup "" }

/-- Format a timestamp for the `DATETIME` property. The source renders
ISO-8601 text truncated to seconds with a trailing Z; this model keeps the
trailing Z over an abstract numeral, as no claim inspects the text. -/
def fmtTime (t : ℚ) : String := toString t ++ "Z"

/-- Lift a binary function to missing-value series (a missing operand makes
the result missing, as NaN propagates through the metpy formulas). -/
def zipWithOpt {α : Type*} (f : α → α → α) (a b : List (Option α)) :
    List (Option α) :=
  List.zipWith (fun x y => x.bind (fun xv => y.map (fun yv => f xv yv))) a b

/-- `DataService.get_points_as_geojson` from data_service.py, end to end:
check the requested parameters are supported, unpack the coordinate columns,
normalize longitudes, resolve nearest grid coordinates and clip the time
range (`_load_subset`), resample when the requested frequency is not hourly
(`_downscale_to_freq`), derive the requested parameters
(`_calculate_output_values`), convert units (`_convert_units`) and render
(`_render_points_geojson`). The requested parameters form a set in the
source; iteration over them is modelled in sorted order. -/
noncomputable def get_points_as_geojson (ds : Dataset) (coords : List (ℚ × ℚ))
    (date_range : ℤ × ℤ) (requested_params : Finset String)
    (requested_feature_ids : Option (List (Option String)))
    (us : UnitSystem) (freq : Frequency) : Except ApiError FeatureCollection := do
  let _ ← check_params_supported
      (((gen_supported_params (ds.data_vars.map (·.1))).map (·.1)).toFinset)
      requested_params
  let (lonsG, lats) ← unpack2 (zipStar coords)
  let supported := gen_supported_params (ds.data_vars.map (·.1))
  let lonsZ := lonsG.map longitude_geojson_to_zarr
  let mLons := lonsZ.map (nearestVal ds.lons)
  let mLats := lats.map (nearestVal ds.lats)
  let timeAxis := load_subset_times ((ds.times.min?).getD 0)
      ((ds.times.max?).getD 0) date_range.1 date_range.2
  let specOf : String → ParameterSpec := fun k =>
    (List.lookup k supported).getD defaultSpec
  let keySeries : String → ℕ → List (Option ℝ) := fun key z =>
    series_at_freq (specOf key).interpolator freq
      (timeAxis.map (fun t => ds.varAt key t (mLons.getD z 0) (mLats.getD z 0)))
  let paramSeries : String → ℕ → List (Option ℝ) := fun p z =>
    match (specOf p).calculator with
    | CalcKind.lookup key => keySeries key z
    | CalcKind.windSpeed =>
        zipWithOpt calc_wind_speed (keySeries "VAR_10U" z) (keySeries "VAR_10V" z)
    | CalcKind.windDirection =>
        zipWithOpt calc_wind_direction (keySeries "VAR_10U" z) (keySeries "VAR_10V" z)
  let convSeries : String → ℕ → List (Option ℝ) := fun p z =>
    (paramSeries p z).map (Option.map (fun v => (specOf p).convert_units us v))
  let timeStrs : List String :=
    match freq with
    | Frequency.ONE_HOUR => timeAxis.map (fun t => fmtTime (t : ℚ))
    | Frequency.FIVE_MINUTE =>
        if timeAxis.isEmpty then []
        else (List.range ((timeAxis.length - 1) * 12 + 1)).map
          (fun i : ℕ => fmtTime ((timeAxis.getD 0 0 : ℚ) + (i : ℚ) / 12))
  let values : String → ℕ → ℕ → ℝ := fun p t z =>
    ((convSeries p z).getD t none).getD 0
  pure (_render_points_geojson (requested_params.sort (· ≤ ·)) timeStrs
    (mLons.map longitude_zarr_to_geojson) mLats values requested_feature_ids)

/-- Registry lookup by short name, total via the fallback spec. -/
def specOfName (n : String) : ParameterSpec :=
  (List.lookup n SUPPORTED_PARAMETERS).getD defaultSpec

section Helpers

lemma getD_range_map {β : Type*} (f : ℕ → β) (L i : ℕ) (d : β) :
    ((List.range L).map f).getD i d = if i < L then f i else d := by
  by_cases h : i < L
  · rw [List.getD_eq_getElem?_getD, List.getElem?_map, List.getElem?_range h]
    simp [h]
  · rw [List.getD_eq_getElem?_getD, List.getElem?_map]
    rw [List.getElem?_eq_none (by simpa using h)]
    simp [h]

lemma mem_dateRange1H (s e x : ℤ) : x ∈ dateRange1H s e ↔ s ≤ x ∧ x ≤ e := by
  simp only [dateRange1H, List.mem_map, List.mem_range]
  constructor
  · rintro ⟨i, hi, rfl⟩
    omega
  · intro hx
    exact ⟨(x - s).toNat, by omega, by omega⟩

lemma chain'_dateRange1H (s e : ℤ) :
    List.Chain' (fun a b : ℤ => b = a + 1) (dateRange1H s e) := by
  unfold dateRange1H
  rcases Nat.eq_zero_or_pos (e + 1 - s).toNat with h | h
  · rw [h]
    exact List.chain'_nil
  · obtain ⟨m, hm⟩ := Nat.exists_eq_succ_of_ne_zero h.ne'
    rw [hm]
    refine (List.chain'_map _).mpr ?_
    refine (List.chain'_range_succ _ m).mpr ?_
    intro i _
    push_cast
    ring

lemma dateRange1H_eq_nil (s e : ℤ) (h : e < s) : dateRange1H s e = [] := by
  unfold dateRange1H
  rw [show (e + 1 - s).toNat = 0 by omega]
  rfl

lemma range_flatMap_map {β : Type*} (m n : ℕ) (f : ℕ → ℕ → β) :
    (List.range m).flatMap (fun z => (List.range n).map (f z)) =
      (List.range (m * n)).map (fun k => f (k / n) (k % n)) := by
  induction m with
  | zero => simp
  | succ m ih =>
    rw [List.range_succ, List.flatMap_append, ih, Nat.add_mul, Nat.one_mul,
      List.range_add, List.map_append, List.map_map]
    have h1 : ([m] : List ℕ).flatMap (fun z => (List.range n).map (f z))
        = (List.range n).map (f m) := by simp
    rw [h1]
    congr 1
    apply List.map_congr_left
    intro i hi
    rw [List.mem_range] at hi
    have hn : 0 < n := lt_of_le_of_lt (Nat.zero_le i) hi
    simp only [Function.comp]
    rw [show m * n + i = n * m + i by ring, Nat.mul_add_div hn, Nat.mul_add_mod,
      Nat.div_eq_of_lt hi, Nat.mod_eq_of_lt hi, Nat.add_zero]

lemma render_features_eq (parameters times : List String) (lons lats : List ℚ)
    (values : String → ℕ → ℕ → ℝ) (rids : Option (List (Option String))) :
    (_render_points_geojson parameters times lons lats values rids).features =
      (List.range (lons.length * times.length)).map (fun k =>
        { fid := k + 1
          lon := lons.getD (k / times.length) 0
          lat := lats.getD (k / times.length) 0
          datetime := times.getD (k % times.length) ""
          request_id :=
            match rids with
            | none => none
            | some ids => ids.getD (k / times.length) none
          props := parameters.map
            (fun p => (p, values p (k % times.length) (k / times.length))) }) := by
  unfold _render_points_geojson
  simp only
  rw [range_flatMap_map]
  apply List.map_congr_left
  intro k hk
  rw [List.mem_range] at hk
  have hfid : k / times.length * times.length + k % times.length + 1 = k + 1 := by
    rw [Nat.mul_comm, Nat.div_add_mod]
  simp only [hfid]

lemma length_render (parameters times : List String) (lons lats : List ℚ)
    (values : String → ℕ → ℕ → ℝ) (rids : Option (List (Option String))) :
    (_render_points_geojson parameters times lons lats values rids).features.length
      = lons.length * times.length := by
  rw [render_features_eq]
  simp

lemma bfill_getD {β : Type*} (l : List (Option β)) (i : ℕ) (hi : i < l.length) :
    (bfill l).getD i none = (l.drop i).findSome? id := by
  unfold bfill
  rw [getD_range_map, if_pos hi]

lemma getD_map_opt {β γ : Type*} (g : β → γ) (l : List (Option β)) (i : ℕ) :
    (l.map (Option.map g)).getD i none = Option.map g (l.getD i none) := by
  rw [List.getD_eq_getElem?_getD, List.getD_eq_getElem?_getD, List.getElem?_map]
  cases l[i]? <;> simp

lemma findSome?_drop_of {β : Type*} (L : List (Option β)) (x : β) :
    ∀ (d i : ℕ), (∀ m, m < d → L.getD (i + m) none = none) →
      L.getD (i + d) none = some x →
      (L.drop i).findSome? id = some x := by
  intro d
  induction d with
  | zero =>
    intro i _ hx
    rw [Nat.add_zero] at hx
    have hsome : L[i]? = some (some x) := by
      rw [List.getD_eq_getElem?_getD] at hx
      cases hL : L[i]? with
      | none => rw [hL] at hx; simp at hx
      | some o => rw [hL] at hx; simp only [Option.getD_some] at hx; rw [hx]
    have hi : i < L.length := by
      by_contra hcon
      push_neg at hcon
      rw [List.getElem?_eq_none hcon] at hsome
      exact Option.noConfusion hsome
    have hval : L[i] = some x := by
      rw [List.getElem?_eq_getElem hi] at hsome
      exact Option.some.inj hsome
    rw [List.drop_eq_getElem_cons hi, List.findSome?_cons, hval]
    rfl
  | succ d ih =>
    intro i hnone hx
    have h0 : L.getD (i + 0) none = none := hnone 0 (Nat.succ_pos d)
    rw [Nat.add_zero] at h0
    have hi : i < L.length := by
      by_contra hcon
      push_neg at hcon
      rw [List.getD_eq_getElem?_getD, List.getElem?_eq_none (by omega)] at hx
      exact Option.noConfusion hx
    have hLi : L[i] = none := by
      rw [List.getD_eq_getElem?_getD, List.getElem?_eq_getElem hi] at h0
      simpa using h0
    rw [List.drop_eq_getElem_cons hi, List.findSome?_cons, hLi]
    show (L.drop (i + 1)).findSome? id = some x
    refine ih (i + 1) (fun m hm => ?_) ?_
    · have h := hnone (m + 1) (by omega)
      rwa [show i + (m + 1) = i + 1 + m by omega] at h
    · rwa [show i + (d + 1) = i + 1 + d by omega] at hx

lemma isEmpty_false_of_ne_nil {β : Type*} {l : List β} (h : l ≠ []) :
    l.isEmpty = false := by
  cases l with
  | nil => exact absurd rfl h
  | cons a t => rfl

lemma reindex_to_freq_length {α : Type*} [Zero α] (vs : List α) (k : ℕ)
    (h : vs ≠ []) : (reindex_to_freq vs k).length = (vs.length - 1) * k + 1 := by
  unfold reindex_to_freq
  rw [isEmpty_false_of_ne_nil h]
  simp

lemma reindex_to_freq_getD {α : Type*} [Zero α] (vs : List α) (k i : ℕ)
    (h : vs ≠ []) (hi : i < (vs.length - 1) * k + 1) :
    (reindex_to_freq vs k).getD i none =
      if i % k = 0 then some (vs.getD (i / k) 0) else none := by
  unfold reindex_to_freq
  rw [isEmpty_false_of_ne_nil h]
  simp only [Bool.false_eq_true, if_false]
  rw [getD_range_map, if_pos hi]

end Helpers

/-- C3: every longitude in (-180, 180] is sent by geojson→zarr normalization
into [0, 360), and the zarr→geojson conversion maps the result back to the
original longitude; in particular 0 and 180 are fixed points while -180 lies
outside the admitted range. -/
theorem longitude_roundtrip (lon : ℚ) (h1 : -180 < lon) (h2 : lon ≤ 180) :
    0 ≤ longitude_geojson_to_zarr lon ∧ longitude_geojson_to_zarr lon < 360 ∧
      longitude_zarr_to_geojson (longitude_geojson_to_zarr lon) = lon := by
  by_cases hneg : lon < 0
  · have h180 : lon + 360 > 180 := by linarith
    simp only [longitude_geojson_to_zarr, longitude_zarr_to_geojson, if_pos hneg,
      if_pos h180]
    exact ⟨by linarith, by linarith, by ring⟩
  · have h180 : ¬ lon > 180 := by linarith
    simp only [longitude_geojson_to_zarr, longitude_zarr_to_geojson, if_neg hneg,
      if_neg h180]
    exact ⟨by linarith, by linarith, by trivial⟩

/-- Witness for `longitude_roundtrip`: the boundary longitude 180 round-trips,
and 0 and 180 are fixed by the forward conversion. -/
theorem longitude_roundtrip_witness :
    longitude_zarr_to_geojson (longitude_geojson_to_zarr 180) = 180
    ∧ longitude_geojson_to_zarr 0 = 0 ∧ longitude_geojson_to_zarr 180 = 180 :=
  ⟨(longitude_roundtrip 180 (by norm_num) (by norm_num)).2.2,
    by norm_num [longitude_geojson_to_zarr],
    by norm_num [longitude_geojson_to_zarr]⟩

/-- C8: a catalog parameter is in the registry built for a dataset iff every
one of its raw data keys is among the dataset's data variables; no other
filter is applied to the static catalog. -/
theorem registry_mem_iff (available : List String) (kv : String × ParameterSpec) :
    kv ∈ gen_supported_params available ↔
      kv ∈ SUPPORTED_PARAMETERS ∧ ∀ k ∈ kv.2.data_keys, k ∈ available := by
  unfold gen_supported_params ParameterSpec.keys_present
  rw [List.mem_filter]
  simp [List.all_eq_true, List.elem_iff]

/-- Witness for `registry_mem_iff`: total precipitation is exposed by a
dataset carrying the TP variable. -/
theorem registry_mem_iff_witness :
    ("TP", specOfName "TP") ∈ gen_supported_params ["TP", "VAR_2T"] :=
  (registry_mem_iff ["TP", "VAR_2T"] ("TP", specOfName "TP")).mpr
    ⟨by simp [SUPPORTED_PARAMETERS, specOfName, List.lookup, defaultSpec],
      by simp [specOfName, SUPPORTED_PARAMETERS, List.lookup, defaultSpec]⟩

/-- C6: across the catalog, unit conversion is the identity whenever the
native storage unit equals the target display unit (in particular for every
parameter under SI), and the only non-identity conversions are
Kelvin→Celsius for temperature, Pa→hPa for the two pressures and m→mm for
total precipitation. -/
theorem convert_units_catalog (x : ℚ) :
    (∀ kv ∈ SUPPORTED_PARAMETERS, kv.2.convert_units UnitSystem.SI x = x)
    ∧ (∀ kv ∈ SUPPORTED_PARAMETERS,
        kv.2.data_unit = kv.2.units UnitSystem.DEFAULT →
        kv.2.convert_units UnitSystem.DEFAULT x = x)
    ∧ (specOfName "VAR_2T").convert_units UnitSystem.DEFAULT x = x - 273.15
    ∧ (specOfName "SP").convert_units UnitSystem.DEFAULT x = x / 100
    ∧ (specOfName "MSL").convert_units UnitSystem.DEFAULT x = x / 100
    ∧ (specOfName "TP").convert_units UnitSystem.DEFAULT x = x * 1000 := by
  refine ⟨?_, ?_, ?_, ?_, ?_, ?_⟩
  · intro kv hkv
    fin_cases hkv <;>
      norm_num [ParameterSpec.convert_units, ParameterSpec.units, pintConvert]
  · intro kv _ h
    simp only [ParameterSpec.convert_units]
    rw [if_pos h]
  · have h1 : (specOfName "VAR_2T").data_unit = "K" := rfl
    have h2 : (specOfName "VAR_2T").units UnitSystem.DEFAULT = "degC" := rfl
    simp only [ParameterSpec.convert_units, pintConvert, h1, h2]
    rw [if_neg (by decide), if_pos (by decide)]
    norm_num
  · have h1 : (specOfName "SP").data_unit = "Pa" := rfl
    have h2 : (specOfName "SP").units UnitSystem.DEFAULT = "hPa" := rfl
    simp only [ParameterSpec.convert_units, pintConvert, h1, h2]
    rw [if_neg (by decide), if_neg (by decide), if_pos (by decide)]
  · have h1 : (specOfName "MSL").data_unit = "Pa" := rfl
    have h2 : (specOfName "MSL").units UnitSystem.DEFAULT = "hPa" := rfl
    simp only [ParameterSpec.convert_units, pintConvert, h1, h2]
    rw [if_neg (by decide), if_neg (by decide), if_pos (by decide)]
  · have h1 : (specOfName "TP").data_unit = "m" := rfl
    have h2 : (specOfName "TP").units UnitSystem.DEFAULT = "mm" := rfl
    simp only [ParameterSpec.convert_units, pintConvert, h1, h2]
    rw [if_neg (by decide), if_neg (by decide), if_neg (by decide),
      if_pos (by decide)]

/-- Witness for `convert_units_catalog`: 300 K becomes 26.85 °C, and a
parameter whose native unit equals the display unit passes through. -/
theorem convert_units_catalog_witness :
    (specOfName "VAR_2T").convert_units UnitSystem.DEFAULT (300 : ℚ) = 2685 / 100
    ∧ (specOfName "TCWV").convert_units UnitSystem.DEFAULT (7 : ℚ) = 7 := by
  constructor
  · rw [(convert_units_catalog 300).2.2.1]
    norm_num
  · exact (convert_units_catalog 7).2.1 ("TCWV", specOfName "TCWV")
      (by simp [SUPPORTED_PARAMETERS, specOfName, List.lookup, defaultSpec])
      (by rfl)

/-- C7: the selected time axis is the inclusive intersection of the
requested window with the dataset's native span, as a contiguous ascending
hourly sequence; an empty intersection yields an empty axis and zero
rendered features instead of a failure. -/
theorem load_subset_time_axis (dataMin dataMax reqStart reqEnd : ℤ) :
    (∀ x : ℤ, x ∈ load_subset_times dataMin dataMax reqStart reqEnd ↔
        ((reqStart ≤ x ∧ x ≤ reqEnd) ∧ (dataMin ≤ x ∧ x ≤ dataMax)))
    ∧ List.Chain' (fun a b : ℤ => b = a + 1)
        (load_subset_times dataMin dataMax reqStart reqEnd)
    ∧ (min reqEnd dataMax < max reqStart dataMin →
        load_subset_times dataMin dataMax reqStart reqEnd = []
        ∧ ∀ (ps : List String) (lons lats : List ℚ)
            (values : String → ℕ → ℕ → ℝ) rids,
            (_render_points_geojson ps [] lons lats values rids).features = []) := by
  refine ⟨?_, chain'_dateRange1H _ _, ?_⟩
  · intro x
    unfold load_subset_times
    rw [mem_dateRange1H, max_le_iff, le_min_iff]
    tauto
  · intro hlt
    refine ⟨dateRange1H_eq_nil _ _ hlt, ?_⟩
    intro ps lons lats values rids
    rw [render_features_eq]
    simp

/-- Witness for `load_subset_time_axis`: with dataset span [0, 5], the
request [2, 3] selects exactly the stamps 2 and 3, and the request [10, 12]
selects nothing. -/
theorem load_subset_time_axis_witness :
    ((2 : ℤ) ∈ load_subset_times 0 5 2 3 ∧ (4 : ℤ) ∉ load_subset_times 0 5 2 3)
    ∧ load_subset_times 0 5 10 12 = [] := by
  refine ⟨⟨?_, ?_⟩, ?_⟩
  · exact ((load_subset_time_axis 0 5 2 3).1 2).mpr (by norm_num)
  · intro hmem
    have h := ((load_subset_time_axis 0 5 2 3).1 4).mp hmem
    omega
  · exact ((load_subset_time_axis 0 5 10 12).2.2 (by norm_num)).1

/-- C1: the rendered collection has exactly |points| × |times| features; the
k-th feature (0-based) belongs to point k / |times| and timestamp
k % |times| — point-major in input point order, time-minor in time-axis
order — and carries feature id k + 1, the consecutive integers from 1. -/
theorem render_count_order (parameters times : List String) (lons lats : List ℚ)
    (values : String → ℕ → ℕ → ℝ) (rids : Option (List (Option String))) :
    (_render_points_geojson parameters times lons lats values rids).features.length
        = lons.length * times.length
    ∧ ∀ k, k < lons.length * times.length → ∀ d : Feature,
        ((_render_points_geojson parameters times lons lats values rids).features.getD
            k d).fid = k + 1
        ∧ ((_render_points_geojson parameters times lons lats values rids).features.getD
            k d).lon = lons.getD (k / times.length) 0
        ∧ ((_render_points_geojson parameters times lons lats values rids).features.getD
            k d).lat = lats.getD (k / times.length) 0
        ∧ ((_render_points_geojson parameters times lons lats values rids).features.getD
            k d).datetime = times.getD (k % times.length) "" := by
  refine ⟨length_render parameters times lons lats values rids, ?_⟩
  intro k hk d
  rw [render_features_eq, getD_range_map, if_pos hk]
  exact ⟨rfl, rfl, rfl, rfl⟩

/-- Witness for `render_count_order`: two points and three timestamps give
six features, and the fifth feature (index 4) is point 1 at timestamp 1 with
id 5. -/
theorem render_count_order_witness :
    (_render_points_geojson [] ["a", "b", "c"] [1, 2] [3, 4]
        (fun _ _ _ => 0) none).features.length = 6
    ∧ ((_render_points_geojson [] ["a", "b", "c"] [1, 2] [3, 4]
        (fun _ _ _ => 0) none).features.getD 4 ⟨0, 0, 0, "", none, []⟩).fid = 5
    ∧ ((_render_points_geojson [] ["a", "b", "c"] [1, 2] [3, 4]
        (fun _ _ _ => 0) none).features.getD 4 ⟨0, 0, 0, "", none, []⟩).lon = 2
    ∧ ((_render_points_geojson [] ["a", "b", "c"] [1, 2] [3, 4]
        (fun _ _ _ => 0) none).features.getD 4 ⟨0, 0, 0, "", none, []⟩).datetime
        = "b" := by
  have h := render_count_order [] ["a", "b", "c"] [1, 2] [3, 4] (fun _ _ _ => 0) none
  have h4 := h.2 4 (by norm_num) ⟨0, 0, 0, "", none, []⟩
  refine ⟨?_, h4.1, ?_, ?_⟩
  · exact h.1
  · rw [h4.2.1]
    rfl
  · rw [h4.2.2.2]
    rfl

/-- C2: under 5-minute resampling with the catalog's TP interpolator, every
newly introduced intermediate position i (not a multiple of 12) receives the
value of the next native sample divided by 12 — back-fill of the divided
series, not linear interpolation. -/
theorem tp_five_minute_backfill (vs : List ℚ) (i : ℕ)
    (hi : i < (vs.length - 1) * 12) (hmod : i % 12 ≠ 0) :
    (series_at_freq (specOfName "TP").interpolator Frequency.FIVE_MINUTE vs).getD
        i none = some (vs.getD (i / 12 + 1) 0 / 12) := by
  have hvs : vs ≠ [] := by
    rintro rfl
    simp at hi
  have hinterp : (specOfName "TP").interpolator
      = InterpKind.bfillAverage INTERPOLATED_STEPS_PER_HOUR := rfl
  rw [hinterp]
  show (applyInterp (InterpKind.bfillAverage INTERPOLATED_STEPS_PER_HOUR)
      (reindex_to_freq vs 12)).getD i none = _
  have hsteps : INTERPOLATED_STEPS_PER_HOUR = (12 : ℚ) := by
    norm_num [INTERPOLATED_STEPS_PER_HOUR]
  simp only [applyInterp, Rat.cast_id, hsteps]
  unfold interp_bfill_average
  rw [bfill_getD _ i
    (by rw [List.length_map, reindex_to_freq_length vs 12 hvs]; omega)]
  have hj : i / 12 + 1 ≤ vs.length - 1 := by omega
  refine findSome?_drop_of _ _ ((i / 12 + 1) * 12 - i) i (fun m hm => ?_) ?_
  · rw [getD_map_opt, reindex_to_freq_getD vs 12 (i + m) hvs (by omega),
      if_neg (by omega)]
    rfl
  · rw [show i + ((i / 12 + 1) * 12 - i) = (i / 12 + 1) * 12 by omega,
      getD_map_opt, reindex_to_freq_getD vs 12 ((i / 12 + 1) * 12) hvs (by omega),
      if_pos (by omega), show (i / 12 + 1) * 12 / 12 = i / 12 + 1 by omega]
    rfl

/-- Witness for `tp_five_minute_backfill`: native hourly values 24 and 48,
position 5 (an intermediate 5-minute slot) reports 48 / 12 = 4. -/
theorem tp_five_minute_backfill_witness :
    (series_at_freq (specOfName "TP").interpolator Frequency.FIVE_MINUTE
        ([24, 48] : List ℚ)).getD 5 none = some 4 := by
  have h := tp_five_minute_backfill ([24, 48] : List ℚ) 5 (by norm_num) (by norm_num)
  rw [h]
  norm_num [List.getD]

/-- C9: with the catalog's TP interpolator, the division by 12 also hits the
original native positions under 5-minute resampling (position j·12 reports
the stored value divided by 12), while the hourly path, which skips the
resampling stage, reports the stored value itself — a factor-of-12
difference at the same timestamp. -/
theorem tp_native_vs_hourly (vs : List ℚ) (j : ℕ) (hj : j < vs.length) :
    (series_at_freq (specOfName "TP").interpolator Frequency.FIVE_MINUTE vs).getD
        (j * 12) none = some (vs.getD j 0 / 12)
    ∧ (series_at_freq (specOfName "TP").interpolator Frequency.ONE_HOUR vs).getD
        j none = some (vs.getD j 0)
    ∧ vs.getD j 0 = 12 * (vs.getD j 0 / 12) := by
  have hvs : vs ≠ [] := by
    rintro rfl
    simp at hj
  refine ⟨?_, ?_, by ring⟩
  · have hinterp : (specOfName "TP").interpolator
        = InterpKind.bfillAverage INTERPOLATED_STEPS_PER_HOUR := rfl
    rw [hinterp]
    show (applyInterp (InterpKind.bfillAverage INTERPOLATED_STEPS_PER_HOUR)
        (reindex_to_freq vs 12)).getD (j * 12) none = _
    have hsteps : INTERPOLATED_STEPS_PER_HOUR = (12 : ℚ) := by
      norm_num [INTERPOLATED_STEPS_PER_HOUR]
    simp only [applyInterp, Rat.cast_id, hsteps]
    unfold interp_bfill_average
    rw [bfill_getD _ (j * 12)
      (by rw [List.length_map, reindex_to_freq_length vs 12 hvs]; omega)]
    refine findSome?_drop_of _ _ 0 (j * 12) (fun m hm => absurd hm (by omega)) ?_
    rw [Nat.add_zero, getD_map_opt,
      reindex_to_freq_getD vs 12 (j * 12) hvs (by omega), if_pos (by omega),
      show j * 12 / 12 = j by omega]
    rfl
  · show ((vs.map some).getD j none) = some (vs.getD j 0)
    rw [List.getD_eq_getElem?_getD, List.getElem?_map,
      List.getElem?_eq_getElem hj, List.getD_eq_getElem?_getD,
      List.getElem?_eq_getElem hj]
    rfl

/-- Witness for `tp_native_vs_hourly`: native values 24 and 48 at index 1:
the 5-minute series reports 4 = 48 / 12 at tick 12, the hourly series
reports 48. -/
theorem tp_native_vs_hourly_witness :
    (series_at_freq (specOfName "TP").interpolator Frequency.FIVE_MINUTE
        ([24, 48] : List ℚ)).getD 12 none = some 4
    ∧ (series_at_freq (specOfName "TP").interpolator Frequency.ONE_HOUR
        ([24, 48] : List ℚ)).getD 1 none = some 48 := by
  have h := tp_native_vs_hourly ([24, 48] : List ℚ) 1 (by norm_num)
  constructor
  · have h1 := h.1
    rw [show (1 * 12 : ℕ) = 12 from rfl] at h1
    rw [h1]
    norm_num [List.getD]
  · rw [h.2.1]
    norm_num [List.getD]

section PipelineLemmas

lemma check_params_supported_err (supported requested : Finset String)
    (h : get_unsupported_params supported requested ≠ ∅) :
    check_params_supported supported requested
      = Except.error (mkParamNotSupportedError
          (get_unsupported_params supported requested)) := by
  unfold check_params_supported
  rw [if_neg h]

lemma check_params_supported_ok (supported requested : Finset String)
    (h : get_unsupported_params supported requested = ∅) :
    check_params_supported supported requested = Except.ok () := by
  unfold check_params_supported
  rw [if_pos h]

lemma except_bind_ok {ε γ δ : Type} (x : γ) (k : γ → Except ε δ) :
    (Except.ok x : Except ε γ) >>= k = k x := rfl

lemma except_bind_err {ε γ δ : Type} (e : ε) (k : γ → Except ε δ) :
    (Except.error e : Except ε γ) >>= k = Except.error e := rfl

lemma unpack2_eq (cols : List (List ℚ)) :
    unpack2 cols = Except.error (ApiError.valueError "not enough values to unpack")
    ∨ ∃ a b, cols = [a, b] ∧ unpack2 cols = Except.ok (a, b) := by
  match cols with
  | [] => exact Or.inl rfl
  | [a] => exact Or.inl rfl
  | [a, b] => exact Or.inr ⟨a, b, rfl, rfl⟩
  | a :: b :: c :: t => exact Or.inl rfl

end PipelineLemmas

/-- C4: when some requested parameter is not in the registry, the whole
extraction request evaluates to a parameter-not-supported error carrying
exactly the unsupported names in sorted order — no later stage (coordinate
unpacking, loading, resampling, derivation, conversion, rendering) produces
anything; when all requested parameters are supported, no such error is ever
produced. -/
theorem unsupported_params_fail_whole_request (ds : Dataset)
    (coords : List (ℚ × ℚ)) (date_range : ℤ × ℤ)
    (requested_params : Finset String) (rids : Option (List (Option String)))
    (us : UnitSystem) (freq : Frequency) :
    (get_unsupported_params
        (((gen_supported_params (ds.data_vars.map (·.1))).map (·.1)).toFinset)
        requested_params ≠ ∅ →
      get_points_as_geojson ds coords date_range requested_params rids us freq
        = Except.error (ApiError.paramNotSupported
            ((get_unsupported_params
                (((gen_supported_params (ds.data_vars.map (·.1))).map
                  (·.1)).toFinset) requested_params).sort (· ≤ ·)))
      ∧ List.Sorted (· ≤ ·)
          ((get_unsupported_params
              (((gen_supported_params (ds.data_vars.map (·.1))).map
                (·.1)).toFinset) requested_params).sort (· ≤ ·))
      ∧ ∀ p, p ∈ (get_unsupported_params
            (((gen_supported_params (ds.data_vars.map (·.1))).map
              (·.1)).toFinset) requested_params).sort (· ≤ ·) ↔
          (p ∈ requested_params ∧
            p ∉ ((gen_supported_params (ds.data_vars.map (·.1))).map
              (·.1)).toFinset))
    ∧ (get_unsupported_params
        (((gen_supported_params (ds.data_vars.map (·.1))).map (·.1)).toFinset)
        requested_params = ∅ →
      ∀ l, get_points_as_geojson ds coords date_range requested_params rids us freq
        ≠ Except.error (ApiError.paramNotSupported l)) := by
  constructor
  · intro h
    refine ⟨?_, Finset.sort_sorted _ _, ?_⟩
    · unfold get_points_as_geojson
      rw [check_params_supported_err _ _ h]
      rfl
    · intro p
      rw [Finset.mem_sort, get_unsupported_params, Finset.mem_sdiff]
  · intro h l
    unfold get_points_as_geojson
    rw [check_params_supported_ok _ _ h, except_bind_ok]
    rcases unpack2_eq (zipStar coords) with herr | ⟨a, b, _, hok⟩
    · rw [herr, except_bind_err]
      exact fun hcon => ApiError.noConfusion (Except.error.inj hcon)
    · rw [hok, except_bind_ok]
      exact fun hcon => Except.noConfusion hcon

/-- Witness for `unsupported_params_fail_whole_request`: requesting VAR_2T
and PACMAN against a dataset carrying only VAR_2T fails the whole request
with exactly ["PACMAN"], and requesting only VAR_2T never produces a
parameter error. -/
theorem unsupported_params_fail_whole_request_witness :
    get_points_as_geojson ⟨[0], [0], [0], [("VAR_2T", fun _ _ _ => 0)]⟩ [(0, 0)]
        (0, 0) {"VAR_2T", "PACMAN"} none UnitSystem.DEFAULT Frequency.ONE_HOUR
      = Except.error (ApiError.paramNotSupported ["PACMAN"]) := by
  have h := (unsupported_params_fail_whole_request
      ⟨[0], [0], [0], [("VAR_2T", fun _ _ _ => 0)]⟩ [(0, 0)] (0, 0)
      {"VAR_2T", "PACMAN"} none UnitSystem.DEFAULT Frequency.ONE_HOUR).1
      (by decide)
  rw [h.1]
  have hU : get_unsupported_params
      (((gen_supported_params
        ((⟨[0], [0], [0], [("VAR_2T", fun _ _ _ => 0)]⟩ : Dataset).data_vars.map
          (·.1))).map (·.1)).toFinset) {"VAR_2T", "PACMAN"} = {"PACMAN"} := by
    decide
  rw [hU, Finset.sort_singleton]

/-- C10: calling the extraction with an empty point list fails with the
coordinate-unpacking ValueError instead of returning an empty
FeatureCollection, while any non-empty point list unpacks into its two
coordinate columns — a non-empty point list is a precondition. -/
theorem empty_coords_unpack_error (ds : Dataset) (date_range : ℤ × ℤ)
    (requested_params : Finset String) (rids : Option (List (Option String)))
    (us : UnitSystem) (freq : Frequency)
    (h : get_unsupported_params
        (((gen_supported_params (ds.data_vars.map (·.1))).map (·.1)).toFinset)
        requested_params = ∅) :
    get_points_as_geojson ds [] date_range requested_params rids us freq
      = Except.error (ApiError.valueError "not enough values to unpack")
    ∧ ∀ coords : List (ℚ × ℚ), coords ≠ [] →
        unpack2 (zipStar coords)
          = Except.ok (coords.map Prod.fst, coords.map Prod.snd) := by
  constructor
  · unfold get_points_as_geojson
    rw [check_params_supported_ok _ _ h, except_bind_ok]
    rfl
  · intro coords hc
    cases coords with
    | nil => exact absurd rfl hc
    | cons c t => rfl

/-- Witness for `empty_coords_unpack_error`: a supported request over zero
points fails with the unpacking ValueError. -/
theorem empty_coords_unpack_error_witness :
    get_points_as_geojson ⟨[0], [0], [0], [("VAR_2T", fun _ _ _ => 0)]⟩ []
        (0, 0) {"VAR_2T"} none UnitSystem.DEFAULT Frequency.ONE_HOUR
      = Except.error (ApiError.valueError "not enough values to unpack") :=
  (empty_coords_unpack_error ⟨[0], [0], [0], [("VAR_2T", fun _ _ _ => 0)]⟩
    (0, 0) {"VAR_2T"} none UnitSystem.DEFAULT Frequency.ONE_HOUR (by decide)).1

section DegreesLemmas

lemma degrees_zero : degrees 0 = 0 := by
  unfold degrees
  ring

lemma degrees_pi : degrees Real.pi = 180 := by
  unfold degrees
  field_simp [Real.pi_ne_zero]

lemma degrees_neg_pi : degrees (-Real.pi) = -180 := by
  unfold degrees
  field_simp [Real.pi_ne_zero]
  try ring

lemma degrees_pi_div_two : degrees (Real.pi / 2) = 90 := by
  unfold degrees
  field_simp [Real.pi_ne_zero]
  try ring

lemma degrees_neg_pi_div_two : degrees (-(Real.pi / 2)) = -90 := by
  unfold degrees
  field_simp [Real.pi_ne_zero]
  try ring

lemma degrees_lt_iff {a b : ℝ} : degrees a < degrees b ↔ a < b := by
  unfold degrees
  exact mul_lt_mul_right (by positivity)

lemma degrees_add_pi (a : ℝ) : degrees (a + Real.pi) = degrees a + 180 := by
  unfold degrees
  rw [add_mul]
  congr 1
  field_simp [Real.pi_ne_zero]

lemma degrees_sub_pi (a : ℝ) : degrees (a - Real.pi) = degrees a - 180 := by
  unfold degrees
  rw [sub_mul]
  congr 1
  field_simp [Real.pi_ne_zero]

lemma realMod_eq_self {x : ℝ} (h0 : 0 ≤ x) (h1 : x < 360) : realMod x 360 = x := by
  unfold realMod
  have hf : ⌊x / 360⌋ = 0 := by
    rw [Int.floor_eq_zero_iff, Set.mem_Ico]
    exact ⟨by positivity, by rw [div_lt_one (by norm_num)]; exact h1⟩
  rw [hf]
  simp

lemma realMod_eq_sub {x : ℝ} (h0 : 360 ≤ x) (h1 : x < 720) :
    realMod x 360 = x - 360 := by
  unfold realMod
  have hf : ⌊x / 360⌋ = 1 := by
    rw [Int.floor_eq_iff]
    push_cast
    constructor
    · rw [le_div_iff₀ (by norm_num)]
      linarith
    · rw [div_lt_iff₀ (by norm_num)]
      linarith
  rw [hf]
  push_cast
  ring

end DegreesLemmas

/-- C5 counterexample: for a due-north wind (u = 0, v = -1) the code's wind
direction (via metpy's convention) is 360, while the spec formula
`(270 - atan2(v, u) in degrees) mod 360` gives 0. -/
theorem wind_direction_formula_counterexample :
    calc_wind_direction 0 (-1) ≠ realMod (270 - degrees (atan2 (-1) 0)) 360 := by
  have h1 : atan2 (-1) 0 = -(Real.pi / 2) := by
    show Complex.arg ⟨0, -1⟩ = _
    have hmk : (⟨0, -1⟩ : ℂ) = -Complex.I := by
      apply Complex.ext <;> simp
    rw [hmk, Complex.arg_neg_I]
  have h2 : atan2 (-(-1)) (-0) = Real.pi / 2 := by
    show Complex.arg ⟨-0, -(-1)⟩ = _
    have hmk : (⟨-0, -(-1)⟩ : ℂ) = Complex.I := by
      apply Complex.ext <;> simp
    rw [hmk, Complex.arg_I]
  have hL : calc_wind_direction 0 (-1) = 360 := by
    unfold calc_wind_direction
    rw [if_neg (by norm_num)]
    simp only [h2, degrees_pi_div_two]
    norm_num
  have hR : realMod (270 - degrees (atan2 (-1) 0)) 360 = 0 := by
    rw [h1, degrees_neg_pi_div_two,
      show (270 : ℝ) - -90 = 360 by norm_num,
      realMod_eq_sub (by norm_num) (by norm_num)]
    norm_num
  rw [hL, hR]
  norm_num

/-- C5 amended: wind speed is `sqrt(u² + v²)`; wind direction always lies in
[0, 360] and agrees with the spec's `(270 - atan2(v, u) in degrees) mod 360`
except in the due-north case u = 0, v < 0, where the code reports 360 where
the mod formula gives 0 (and in the calm case u = v = 0, where the code
reports 0). -/
theorem wind_formulas (u v : ℝ) :
    calc_wind_speed u v = Real.sqrt (u ^ 2 + v ^ 2)
    ∧ (0 ≤ calc_wind_direction u v ∧ calc_wind_direction u v ≤ 360)
    ∧ (¬ (u = 0 ∧ v ≤ 0) →
        calc_wind_direction u v = realMod (270 - degrees (atan2 v u)) 360)
    ∧ (u = 0 → v < 0 → calc_wind_direction u v = 360) := by
  refine ⟨rfl, ?_⟩
  by_cases hcalm : u = 0 ∧ v = 0
  · have hd : calc_wind_direction u v = 0 := by
      unfold calc_wind_direction
      rw [if_pos hcalm]
    refine ⟨by rw [hd]; norm_num, ?_, ?_⟩
    · intro hc
      exact absurd ⟨hcalm.1, le_of_eq hcalm.2⟩ hc
    · intro _ hv
      rw [hcalm.2] at hv
      exact absurd hv (lt_irrefl 0)
  · have hdir : calc_wind_direction u v =
        if 90 - degrees (atan2 (-v) (-u)) ≤ 0
        then 90 - degrees (atan2 (-v) (-u)) + 360
        else 90 - degrees (atan2 (-v) (-u)) := by
      unfold calc_wind_direction
      rw [if_neg hcalm]
    have hnegz : (⟨-u, -v⟩ : ℂ) = -(⟨u, v⟩ : ℂ) := by
      apply Complex.ext <;> simp
    have hA : atan2 (-v) (-u) = Complex.arg (-(⟨u, v⟩ : ℂ)) := by
      show Complex.arg ⟨-u, -v⟩ = _
      rw [hnegz]
    have hD : atan2 v u = Complex.arg (⟨u, v⟩ : ℂ) := rfl
    rcases lt_trichotomy v 0 with hv | hv | hv
    · -- southward component: v < 0
      have him : (⟨u, v⟩ : ℂ).im < 0 := hv
      have harg : Complex.arg (-(⟨u, v⟩ : ℂ)) = Complex.arg ⟨u, v⟩ + Real.pi :=
        Complex.arg_neg_eq_arg_add_pi_of_im_neg him
      have hAeq : degrees (atan2 (-v) (-u))
          = degrees (Complex.arg (⟨u, v⟩ : ℂ)) + 180 := by
        rw [hA, harg, degrees_add_pi]
      have hargneg : Complex.arg (⟨u, v⟩ : ℂ) < 0 := Complex.arg_neg_iff.mpr him
      have harglb : -Real.pi < Complex.arg (⟨u, v⟩ : ℂ) := Complex.neg_pi_lt_arg _
      have hDneg : degrees (Complex.arg (⟨u, v⟩ : ℂ)) < 0 := by
        have h := degrees_lt_iff.mpr hargneg
        rwa [degrees_zero] at h
      have hDlb : -180 < degrees (Complex.arg (⟨u, v⟩ : ℂ)) := by
        have h := degrees_lt_iff.mpr harglb
        rwa [degrees_neg_pi] at h
      by_cases hu : u = 0
      · -- due-north wind
        have hargval : Complex.arg (⟨u, v⟩ : ℂ) = -(Real.pi / 2) :=
          Complex.arg_eq_neg_pi_div_two_iff.mpr ⟨hu, him⟩
        have hDval : degrees (Complex.arg (⟨u, v⟩ : ℂ)) = -90 := by
          rw [hargval, degrees_neg_pi_div_two]
        have hdirval : calc_wind_direction u v = 360 := by
          rw [hdir, hAeq, hDval]
          norm_num
        refine ⟨by rw [hdirval]; norm_num, ?_, fun _ _ => hdirval⟩
        intro hc
        exact absurd ⟨hu, le_of_lt hv⟩ hc
      · have hDne : degrees (Complex.arg (⟨u, v⟩ : ℂ)) ≠ -90 := by
          intro hc
          have hval : Complex.arg (⟨u, v⟩ : ℂ) = -(Real.pi / 2) := by
            by_contra hne
            rcases lt_or_gt_of_ne hne with hlt | hgt
            · have h := degrees_lt_iff.mpr hlt
              rw [hc, degrees_neg_pi_div_two] at h
              exact lt_irrefl _ h
            · have h := degrees_lt_iff.mpr hgt
              rw [hc, degrees_neg_pi_div_two] at h
              exact lt_irrefl _ h
          exact hu (Complex.arg_eq_neg_pi_div_two_iff.mp hval).1
        rcases lt_or_gt_of_ne hDne with hDlt | hDgt
        · -- direction in (0, 90)
          have hdirval : calc_wind_direction u v
              = -90 - degrees (Complex.arg (⟨u, v⟩ : ℂ)) := by
            rw [hdir, hAeq, if_neg (by push_neg; linarith)]
            ring
          refine ⟨⟨by rw [hdirval]; linarith, by rw [hdirval]; linarith⟩, ?_, ?_⟩
          · intro _
            rw [hdirval, hD, realMod_eq_sub (by linarith) (by linarith)]
            ring
          · intro hu0 _
            exact absurd hu0 hu
        · -- direction in (270, 360)
          have hdirval : calc_wind_direction u v
              = 270 - degrees (Complex.arg (⟨u, v⟩ : ℂ)) := by
            rw [hdir, hAeq, if_pos (by linarith)]
            ring
          refine ⟨⟨by rw [hdirval]; linarith, by rw [hdirval]; linarith⟩, ?_, ?_⟩
          · intro _
            rw [hdirval, hD, realMod_eq_self (by linarith) (by linarith)]
          · intro hu0 _
            exact absurd hu0 hu
    · -- purely zonal wind: v = 0
      have hu : u ≠ 0 := fun hu0 => hcalm ⟨hu0, hv⟩
      subst hv
      rcases lt_or_gt_of_ne hu with hult | hugt
      · have hargval : Complex.arg (⟨u, 0⟩ : ℂ) = Real.pi :=
          Complex.arg_eq_pi_iff.mpr ⟨hult, rfl⟩
        have hargnegval : Complex.arg (-(⟨u, 0⟩ : ℂ)) = 0 := by
          rw [← hnegz]
          exact Complex.arg_eq_zero_iff.mpr
            ⟨show (0 : ℝ) ≤ -u by linarith, show (-0 : ℝ) = 0 from neg_zero⟩
        have hdirval : calc_wind_direction u 0 = 90 := by
          rw [hdir, hA, hargnegval, degrees_zero]
          norm_num
        refine ⟨by rw [hdirval]; norm_num, ?_, ?_⟩
        · intro _
          rw [hdirval, hD, hargval, degrees_pi,
            show (270 : ℝ) - 180 = 90 by norm_num,
            realMod_eq_self (by norm_num) (by norm_num)]
        · intro hu0 _
          exact absurd hu0 hu
      · have hargval : Complex.arg (⟨u, 0⟩ : ℂ) = 0 :=
          Complex.arg_eq_zero_iff.mpr ⟨le_of_lt hugt, rfl⟩
        have hargnegval : Complex.arg (-(⟨u, 0⟩ : ℂ)) = Real.pi := by
          rw [← hnegz]
          exact Complex.arg_eq_pi_iff.mpr
            ⟨show (-u : ℝ) < 0 by linarith, show (-0 : ℝ) = 0 from neg_zero⟩
        have hdirval : calc_wind_direction u 0 = 270 := by
          rw [hdir, hA, hargnegval, degrees_pi]
          norm_num
        refine ⟨by rw [hdirval]; norm_num, ?_, ?_⟩
        · intro _
          rw [hdirval, hD, hargval, degrees_zero,
            show (270 : ℝ) - 0 = 270 by norm_num,
            realMod_eq_self (by norm_num) (by norm_num)]
        · intro hu0 _
          exact absurd hu0 hu
    · -- northward component: v > 0
      have him : 0 < (⟨u, v⟩ : ℂ).im := hv
      have harg : Complex.arg (-(⟨u, v⟩ : ℂ)) = Complex.arg ⟨u, v⟩ - Real.pi :=
        Complex.arg_neg_eq_arg_sub_pi_of_im_pos him
      have hAeq : degrees (atan2 (-v) (-u))
          = degrees (Complex.arg (⟨u, v⟩ : ℂ)) - 180 := by
        rw [hA, harg, degrees_sub_pi]
      have hargpos : 0 < Complex.arg (⟨u, v⟩ : ℂ) := by
        rcases eq_or_lt_of_le (Complex.arg_nonneg_iff.mpr (le_of_lt him)) with heq | hlt
        · exfalso
          have hz := Complex.arg_eq_zero_iff.mp heq.symm
          have : v = 0 := hz.2
          linarith
        · exact hlt
      have harglt : Complex.arg (⟨u, v⟩ : ℂ) < Real.pi :=
        Complex.arg_lt_pi_iff.mpr (Or.inr (show v ≠ 0 from ne_of_gt hv))
      have hDpos : 0 < degrees (Complex.arg (⟨u, v⟩ : ℂ)) := by
        have h := degrees_lt_iff.mpr hargpos
        rwa [degrees_zero] at h
      have hDlt : degrees (Complex.arg (⟨u, v⟩ : ℂ)) < 180 := by
        have h := degrees_lt_iff.mpr harglt
        rwa [degrees_pi] at h
      have hdirval : calc_wind_direction u v
          = 270 - degrees (Complex.arg (⟨u, v⟩ : ℂ)) := by
        rw [hdir, hAeq, if_neg (by push_neg; linarith)]
        ring
      refine ⟨⟨by rw [hdirval]; linarith, by rw [hdirval]; linarith⟩, ?_, ?_⟩
      · intro _
        rw [hdirval, hD, realMod_eq_self (by linarith) (by linarith)]
      · intro _ hv0
        linarith

/-- Witness for `wind_formulas`: the 3-4-5 wind speed, and a pure south wind
(u = 0, v = 1) blowing toward the north, reported as coming from 180°. -/
theorem wind_formulas_witness :
    calc_wind_speed 3 4 = 5 ∧ calc_wind_direction 0 1 = 180 := by
  have h := wind_formulas 3 4
  have h2 := (wind_formulas 0 1).2.2.1 (by push_neg; intro; norm_num)
  constructor
  · rw [h.1, show (3 : ℝ) ^ 2 + 4 ^ 2 = 25 by norm_num,
      show (25 : ℝ) = 5 ^ 2 by norm_num]
    exact Real.sqrt_sq (by norm_num)
  · rw [h2]
    have ha : atan2 1 0 = Real.pi / 2 := by
      show Complex.arg ⟨0, 1⟩ = _
      have hmk : (⟨0, 1⟩ : ℂ) = Complex.I := by
        apply Complex.ext <;> simp
      rw [hmk, Complex.arg_I]
    rw [ha, degrees_pi_div_two, show (270 : ℝ) - 90 = 180 by norm_num,
      realMod_eq_self (by norm_num) (by norm_num)]

end DataZarr
